import Mathlib

/-!
Verification of a museum-visit booking backend.

The definitions below are a shallow embedding of the capacity-reservation
and booking engine: the Flask handlers over four SQLAlchemy tables
(TimeSlot, Pricing, Booking, Payment).  Dates are modelled as integers
(only their order matters), monetary values as rationals, and the
database as explicit lists of rows.  SQLAlchemy query combinators map to
list operations: .filter_by(...).first() becomes List.find?, .all()
becomes List.filter, and mutating a fetched ORM row becomes replacing
the first matching element of a list.  A rolled-back transaction is
modelled by returning the original database unchanged.
-/

namespace Chatbot

/-- A TimeSlot row: a bookable (date, slot_time, ticket_type) unit with
capacity and current booked count. -/
structure TimeSlot where
  date : Int
  slot_time : String
  ticket_type : String
  capacity : Int
  booked_count : Int
deriving Repr, DecidableEq

/-- A Pricing row: per-adult/per-child prices for a (nationality,
ticket_type) pair, valid on the closed interval
[effective_from, effective_to]. -/
structure Pricing where
  nationality : String
  ticket_type : String
  adult_price : ℚ
  child_price : ℚ
  effective_from : Int
  effective_to : Int
deriving Repr, DecidableEq

/-- A Booking row, as created by the create_booking handler. -/
structure Booking where
  booking_id : Nat
  date : Int
  email : String
  nationality : String
  adults : Int
  children : Int
  ticket_type : String
  time_slot : String
  total_amount : ℚ
  status : String
  payment_status : String
deriving Repr, DecidableEq

/-- A Payment row, as created by the initialize_payment handler. -/
structure Payment where
  id : Nat
  booking_id : Nat
  amount : ℚ
  payment_method : String
  status : String
  transaction_id : Nat
deriving Repr, DecidableEq

/-- The persistent store: the four tables plus a counter supplying the
fresh identifiers that the source draws from autoincrement columns and
uuid4. -/
structure DB where
  slots : List TimeSlot
  bookings : List Booking
  payments : List Payment
  pricings : List Pricing
  next_id : Nat
deriving Repr, DecidableEq

/-- TimeSlot.query.filter_by(date=.., slot_time=.., ticket_type=..): the
row-key predicate used by create_booking and initialize_payment. -/
def slotKeyed (d : Int) (time tt : String) (s : TimeSlot) : Bool :=
  s.date == d && s.slot_time == time && s.ticket_type == tt

/-- Pricing.query filter used by create_booking and get_pricing:
matching nationality and ticket type with
effective_from <= date <= effective_to. -/
def pricingMatch (nat tt : String) (d : Int) (p : Pricing) : Bool :=
  p.nationality == nat && p.ticket_type == tt &&
    decide (p.effective_from ≤ d) && decide (d ≤ p.effective_to)

/-- Replace the first slot matching the predicate by bumping its
booked_count by delta: the ORM mutation time_slot.booked_count += delta
applied to the row returned by .first(). -/
def bumpFirst (p : TimeSlot → Bool) (delta : Int) : List TimeSlot → List TimeSlot
  | [] => []
  | s :: rest =>
    if p s then { s with booked_count := s.booked_count + delta } :: rest
    else s :: bumpFirst p delta rest

/-- The two default slots created for a date that has none yet:
morning 10:00 AM and afternoon 2:00 PM, Regular, capacity 50, booked 0. -/
def defaultSlots (d : Int) : List TimeSlot :=
  [⟨d, "10:00 AM", "Regular", 50, 0⟩, ⟨d, "2:00 PM", "Regular", 50, 0⟩]

/-- TimeSlot.query.filter_by(date=d).all(). -/
def slotsFor (d : Int) (slots : List TimeSlot) : List TimeSlot :=
  slots.filter (fun s => s.date == d)

/-- Input of the create_booking handler, after JSON parsing. -/
structure BookingRequest where
  date : Int
  nationality : String
  adults : Int
  children : Int
  ticketType : String
  timeSlot : String
  email : String
deriving Repr, DecidableEq

/-- Outcome of the create_booking handler. -/
inductive CreateBookingResult where
  | validationError (msg : String)
  | pricingNotFound
  | capacityExceeded (requested : Int) (available : Int)
  | ok (booking_id : Nat) (amount : ℚ)
deriving Repr, DecidableEq

/-- The create_booking handler (src/backend/app.py, create_booking):
validates visitor counts, looks up pricing, computes the total amount,
fetches or creates the time slot, checks capacity (rolling back the
whole transaction on failure, with the remaining capacity in the error),
then increments booked_count by the full visitor count and persists a
pending booking. -/
def create_booking (db : DB) (r : BookingRequest) : CreateBookingResult × DB :=
  if r.adults < 0 then (.validationError "Number of adults cannot be negative", db)
  else if r.children < 0 then (.validationError "Number of children cannot be negative", db)
  else if r.adults + r.children ≤ 0 then
    (.validationError "Total number of visitors must be greater than 0", db)
  else
    match db.pricings.find? (pricingMatch r.nationality r.ticketType r.date) with
    | none => (.pricingNotFound, db)
    | some pricing =>
      let total_visitors := r.adults + r.children
      let total_amount : ℚ :=
        (r.adults : ℚ) * pricing.adult_price + (r.children : ℚ) * pricing.child_price
      let key := slotKeyed r.date r.timeSlot r.ticketType
      let fetched := db.slots.find? key
      let time_slot := fetched.getD ⟨r.date, r.timeSlot, r.ticketType, 50, 0⟩
      if time_slot.booked_count + total_visitors > time_slot.capacity then
        (.capacityExceeded total_visitors (time_slot.capacity - time_slot.booked_count), db)
      else
        let slots' :=
          if fetched.isSome then bumpFirst key total_visitors db.slots
          else
            db.slots ++ [{ time_slot with booked_count := time_slot.booked_count + total_visitors }]
        let booking : Booking :=
          { booking_id := db.next_id
            date := r.date
            email := r.email
            nationality := r.nationality
            adults := r.adults
            children := r.children
            ticket_type := r.ticketType
            time_slot := r.timeSlot
            total_amount := total_amount
            status := "pending"
            payment_status := "pending" }
        (.ok booking.booking_id total_amount,
          { db with
              slots := slots'
              bookings := db.bookings ++ [booking]
              next_id := db.next_id + 1 })

/-- The Booking row persisted by a successful create_booking call. -/
def mkBooking (db : DB) (r : BookingRequest) (pricing : Pricing) : Booking :=
  { booking_id := db.next_id
    date := r.date
    email := r.email
    nationality := r.nationality
    adults := r.adults
    children := r.children
    ticket_type := r.ticketType
    time_slot := r.timeSlot
    total_amount := (r.adults : ℚ) * pricing.adult_price + (r.children : ℚ) * pricing.child_price
    status := "pending"
    payment_status := "pending" }

/-- Input of the initialize_payment handler. -/
structure PaymentRequest where
  booking_id : Nat
  amount : ℚ
  payment_method : String
deriving Repr, DecidableEq

/-- Outcome of the initialize_payment handler. -/
inductive PaymentResult where
  | bookingNotFound
  | alreadyPaid
  | slotNotFound
  | capacityExceeded
  | ok (payment_id : Nat) (status : String) (transaction_id : Nat)
deriving Repr, DecidableEq

/-- The initialize_payment handler (src/backend/app.py,
initialize_payment): finds the booking, rejects if already completed,
creates a payment immediately marked completed, confirms the booking,
then performs a fixed-unit (+1) reservation on the booking's slot; if
the slot is missing or full, the whole transaction rolls back and the
database is unchanged. -/
def initialize_payment (db : DB) (r : PaymentRequest) : PaymentResult × DB :=
  match db.bookings.find? (fun b => b.booking_id == r.booking_id) with
  | none => (.bookingNotFound, db)
  | some booking =>
    if booking.payment_status == "completed" then (.alreadyPaid, db)
    else
      let payment : Payment :=
        { id := db.next_id
          booking_id := booking.booking_id
          amount := r.amount
          payment_method := r.payment_method
          status := "completed"
          transaction_id := db.next_id }
      let key := slotKeyed booking.date booking.time_slot booking.ticket_type
      match db.slots.find? key with
      | none => (.slotNotFound, db)
      | some time_slot =>
        if time_slot.booked_count + 1 > time_slot.capacity then (.capacityExceeded, db)
        else
          let bookings' := db.bookings.map (fun b =>
            if b.booking_id == booking.booking_id then
              { b with status := "confirmed", payment_status := "completed" }
            else b)
          (.ok payment.id payment.status payment.transaction_id,
            { db with
                slots := bumpFirst key 1 db.slots
                bookings := bookings'
                payments := db.payments ++ [payment]
                next_id := db.next_id + 1 })

/-- The lazy slot materialization shared by the GET /api/bookings
handlers (get_bookings and get_bookings_by_date): if no slots exist for
the date, create the two default slots; return the slots for the date. -/
def getOrCreate (db : DB) (d : Int) : List TimeSlot × DB :=
  let existing := slotsFor d db.slots
  if existing.isEmpty then
    (defaultSlots d, { db with slots := db.slots ++ defaultSlots d })
  else (existing, db)

/-- One entry of the check_availability response. -/
structure AvailEntry where
  time : String
  available : Int
  ticket_type : String
deriving Repr, DecidableEq

/-- The check_availability handler (src/backend/app.py,
check_availability): queries the slots for the date and projects them;
it performs no writes and creates no slots. -/
def check_availability (db : DB) (d : Int) : List AvailEntry × DB :=
  ((slotsFor d db.slots).map
    (fun s => ⟨s.slot_time, s.capacity - s.booked_count, s.ticket_type⟩), db)

/-- The get_pricing handler (src/backend/app.py, get_pricing): the first
pricing row matching nationality and ticket type whose validity interval
contains the date, or none.  Read-only: the database is returned
unchanged. -/
def get_pricing (db : DB) (nat tt : String) (d : Int) : Option (ℚ × ℚ) × DB :=
  (((db.pricings.find? (pricingMatch nat tt d)).map
    (fun p => (p.adult_price, p.child_price))), db)

/-- Per-slot detail in a calendar day entry. -/
structure SlotData where
  time : String
  available : Int
  capacity : Int
  booked : Int
deriving Repr, DecidableEq

/-- One day of the monthly calendar response. -/
structure DayStatus where
  status : String
  slots : List SlotData
  total_available : Int
  total_capacity : Int
deriving Repr, DecidableEq

/-- The accumulation loop of get_calendar_data over a day's slots:
running (slot_data, total_available, total_capacity). -/
def calendarTotals : List TimeSlot → List SlotData × Int × Int
  | [] => ([], 0, 0)
  | s :: rest =>
    let (datas, ta, tc) := calendarTotals rest
    (⟨s.slot_time, s.capacity - s.booked_count, s.capacity, s.booked_count⟩ :: datas,
      (s.capacity - s.booked_count) + ta, s.capacity + tc)

/-- The loop body of get_calendar_data (src/backend/app.py,
get_calendar_data) for a single day: lazily materialize default slots
for an empty future day, then classify by the totals; an empty past day
is unavailable with empty detail and zero totals. -/
def calendar_day (today : Int) (d : Int) (slots : List TimeSlot) :
    DayStatus × List TimeSlot :=
  let existing := slotsFor d slots
  let materialize := existing.isEmpty && decide (d ≥ today)
  let day_slots := if materialize then defaultSlots d else existing
  let slots' := if materialize then slots ++ defaultSlots d else slots
  if day_slots.isEmpty then
    (⟨"unavailable", [], 0, 0⟩, slots')
  else
    let t := calendarTotals day_slots
    let total_available := t.2.1
    let total_capacity := t.2.2
    let status :=
      if total_capacity == 0 then "unavailable"
      else if total_available == 0 then "full"
      else if total_available ≤ 5 then "limited"
      else "available"
    (⟨status, t.1, total_available, total_capacity⟩, slots')

/-- The per-slot invariant: 0 ≤ booked_count ≤ capacity. -/
def SlotInv (s : TimeSlot) : Prop :=
  0 ≤ s.booked_count ∧ s.booked_count ≤ s.capacity

/-- Databases reachable from an initial state with no slots (only seeded
pricing rows), through the operations that touch the slot table. -/
inductive Reachable : DB → Prop
  | init (pricings : List Pricing) :
      Reachable ⟨[], [], [], pricings, 0⟩
  | createBooking {db : DB} (r : BookingRequest) :
      Reachable db → Reachable (create_booking db r).2
  | initPayment {db : DB} (r : PaymentRequest) :
      Reachable db → Reachable (initialize_payment db r).2
  | getOrCreateStep {db : DB} (d : Int) :
      Reachable db → Reachable (getOrCreate db d).2
  | calendarDayStep {db : DB} (today d : Int) :
      Reachable db → Reachable { db with slots := (calendar_day today d db.slots).2 }

/-! Helper lemmas about the row-mutation and query combinators. -/

theorem bumpFirst_mem {p : TimeSlot → Bool} {delta : Int} {l : List TimeSlot} {x : TimeSlot}
    (hx : x ∈ bumpFirst p delta l) :
    x ∈ l ∨ ∃ s, l.find? p = some s ∧
      x = { s with booked_count := s.booked_count + delta } := by
  induction l with
  | nil => simp [bumpFirst] at hx
  | cons a rest ih =>
    rw [bumpFirst] at hx
    by_cases hpa : p a
    · rw [if_pos hpa] at hx
      rcases List.mem_cons.mp hx with h | h
      · exact Or.inr ⟨a, List.find?_cons_of_pos _ hpa, h⟩
      · exact Or.inl (List.mem_cons_of_mem _ h)
    · rw [if_neg hpa] at hx
      rcases List.mem_cons.mp hx with h | h
      · exact Or.inl (h ▸ List.mem_cons_self a rest)
      · rcases ih h with h' | ⟨s, hs, hx'⟩
        · exact Or.inl (List.mem_cons_of_mem _ h')
        · exact Or.inr ⟨s, by rw [List.find?_cons_of_neg _ hpa]; exact hs, hx'⟩

theorem find?_bumpFirst (p : TimeSlot → Bool) (delta : Int) (l : List TimeSlot)
    (hp : ∀ s : TimeSlot, p { s with booked_count := s.booked_count + delta } = p s) :
    (bumpFirst p delta l).find? p =
      (l.find? p).map (fun s => { s with booked_count := s.booked_count + delta }) := by
  induction l with
  | nil => simp [bumpFirst]
  | cons a rest ih =>
    rw [bumpFirst]
    by_cases hpa : p a
    · rw [if_pos hpa, List.find?_cons_of_pos _ (by rw [hp]; exact hpa),
        List.find?_cons_of_pos _ hpa]
      rfl
    · rw [if_neg hpa, List.find?_cons_of_neg _ hpa, List.find?_cons_of_neg _ hpa, ih]

theorem slotKeyed_bump (d : Int) (time tt : String) (delta : Int) (s : TimeSlot) :
    slotKeyed d time tt { s with booked_count := s.booked_count + delta } =
      slotKeyed d time tt s := rfl

theorem defaultSlots_inv (d : Int) : ∀ s ∈ defaultSlots d, SlotInv s := by
  intro s hs
  simp only [defaultSlots, List.mem_cons, List.not_mem_nil, or_false] at hs
  rcases hs with h | h <;> (rw [h]; exact ⟨by norm_num, by norm_num⟩)

/-! Step lemmas: every slot-touching operation preserves the per-slot
invariant 0 ≤ booked_count ≤ capacity. -/

theorem create_booking_preserves_inv (db : DB) (r : BookingRequest)
    (h : ∀ s ∈ db.slots, SlotInv s) :
    ∀ s ∈ (create_booking db r).2.slots, SlotInv s := by
  unfold create_booking
  split
  · exact h
  split
  · exact h
  rename_i hadults hchildren
  split
  · exact h
  rename_i htotal
  cases hp : db.pricings.find? (pricingMatch r.nationality r.ticketType r.date) with
  | none => exact h
  | some pricing =>
    simp only
    cases hf : db.slots.find? (slotKeyed r.date r.timeSlot r.ticketType) with
    | some s0 =>
      simp only [hf, Option.getD_some, Option.isSome_some, if_true]
      split
      · exact h
      rename_i hcap
      intro x hx
      rcases bumpFirst_mem hx with hmem | ⟨s, hs, hxeq⟩
      · exact h x hmem
      · rw [hf] at hs
        injection hs with hs
        subst hs
        obtain ⟨h1, h2⟩ := h s0 (List.mem_of_find?_eq_some hf)
        rw [hxeq]
        refine ⟨?_, ?_⟩ <;> dsimp only <;> omega
    | none =>
      simp only [hf, Option.getD_none, Option.isSome_none, Bool.false_eq_true, if_false]
      split
      · exact h
      rename_i hcap
      intro x hx
      rcases List.mem_append.mp hx with hmem | hmem
      · exact h x hmem
      · rw [List.mem_singleton] at hmem
        rw [hmem]
        constructor
        · simp only
          omega
        · simp only at hcap ⊢
          omega

theorem initialize_payment_preserves_inv (db : DB) (r : PaymentRequest)
    (h : ∀ s ∈ db.slots, SlotInv s) :
    ∀ s ∈ (initialize_payment db r).2.slots, SlotInv s := by
  unfold initialize_payment
  cases hb : db.bookings.find? (fun b => b.booking_id == r.booking_id) with
  | none => exact h
  | some booking =>
    simp only
    split
    · exact h
    cases hf : db.slots.find?
        (slotKeyed booking.date booking.time_slot booking.ticket_type) with
    | none => exact h
    | some s0 =>
      simp only
      split
      · exact h
      rename_i hcap
      intro x hx
      rcases bumpFirst_mem hx with hmem | ⟨s, hs, hxeq⟩
      · exact h x hmem
      · rw [hf] at hs
        injection hs with hs
        subst hs
        obtain ⟨h1, h2⟩ := h s0 (List.mem_of_find?_eq_some hf)
        rw [hxeq]
        refine ⟨?_, ?_⟩ <;> dsimp only <;> omega

theorem getOrCreate_slots_eq (db : DB) (d : Int) :
    (getOrCreate db d).2.slots =
      (if (slotsFor d db.slots).isEmpty then db.slots ++ defaultSlots d
       else db.slots) := by
  simp only [getOrCreate]
  by_cases hc : (slotsFor d db.slots).isEmpty
  · rw [if_pos hc, if_pos hc]
  · rw [if_neg hc, if_neg hc]

theorem getOrCreate_preserves_inv (db : DB) (d : Int)
    (h : ∀ s ∈ db.slots, SlotInv s) :
    ∀ s ∈ (getOrCreate db d).2.slots, SlotInv s := by
  rw [getOrCreate_slots_eq]
  split
  · intro x hx
    rcases List.mem_append.mp hx with hmem | hmem
    · exact h x hmem
    · exact defaultSlots_inv d x hmem
  · exact h

theorem calendar_day_slots_eq (today d : Int) (slots : List TimeSlot) :
    (calendar_day today d slots).2 =
      (if (slotsFor d slots).isEmpty && decide (d ≥ today) then
        slots ++ defaultSlots d
       else slots) := by
  simp only [calendar_day]
  by_cases hc : ((slotsFor d slots).isEmpty && decide (d ≥ today)) = true
  · rw [if_pos hc, if_pos hc]
    split <;> rfl
  · rw [if_neg hc, if_neg hc]
    split <;> rfl

theorem calendar_day_preserves_inv (today d : Int) (slots : List TimeSlot)
    (h : ∀ s ∈ slots, SlotInv s) :
    ∀ s ∈ (calendar_day today d slots).2, SlotInv s := by
  rw [calendar_day_slots_eq]
  split
  · intro x hx
    rcases List.mem_append.mp hx with hmem | hmem
    · exact h x hmem
    · exact defaultSlots_inv d x hmem
  · exact h

theorem find?_map_pres {α : Type} (g : α → α) (p : α → Bool)
    (hg : ∀ b, p (g b) = p b) (l : List α) :
    (l.map g).find? p = (l.find? p).map g := by
  induction l with
  | nil => rfl
  | cons a rest ih =>
    by_cases hpa : p a
    · rw [List.map_cons, List.find?_cons_of_pos _ (by rw [hg]; exact hpa),
        List.find?_cons_of_pos _ hpa]
      rfl
    · rw [List.map_cons, List.find?_cons_of_neg _ (by rw [hg]; exact hpa),
        List.find?_cons_of_neg _ hpa, ih]

/-- Shape of a create_booking call that passes validation, finds a
pricing row and finds an existing slot row: a single capacity check
decides between full rollback and commit. -/
theorem create_booking_eq_of_found (db : DB) (r : BookingRequest)
    (pricing : Pricing) (slot : TimeSlot)
    (h1 : ¬ r.adults < 0) (h2 : ¬ r.children < 0) (h3 : ¬ r.adults + r.children ≤ 0)
    (hp : db.pricings.find? (pricingMatch r.nationality r.ticketType r.date) = some pricing)
    (hs : db.slots.find? (slotKeyed r.date r.timeSlot r.ticketType) = some slot) :
    create_booking db r =
      if slot.booked_count + (r.adults + r.children) > slot.capacity then
        (.capacityExceeded (r.adults + r.children) (slot.capacity - slot.booked_count), db)
      else
        (.ok db.next_id
          ((r.adults : ℚ) * pricing.adult_price + (r.children : ℚ) * pricing.child_price),
          { db with
              slots :=
                bumpFirst (slotKeyed r.date r.timeSlot r.ticketType)
                  (r.adults + r.children) db.slots
              bookings := db.bookings ++ [mkBooking db r pricing]
              next_id := db.next_id + 1 }) := by
  unfold create_booking
  rw [if_neg h1, if_neg h2, if_neg h3, hp]
  simp only [hs, Option.getD_some, Option.isSome_some, if_true, mkBooking]

/-- Shape of an initialize_payment call that finds a pending booking
and finds the booking's slot row: the fixed-unit capacity check decides
between rollback and commit. -/
theorem initialize_payment_eq_of_found (db : DB) (r : PaymentRequest)
    (booking : Booking) (slot : TimeSlot)
    (hb : db.bookings.find? (fun b => b.booking_id == r.booking_id) = some booking)
    (hpend : booking.payment_status ≠ "completed")
    (hs : db.slots.find? (slotKeyed booking.date booking.time_slot booking.ticket_type) =
      some slot) :
    initialize_payment db r =
      if slot.booked_count + 1 > slot.capacity then (.capacityExceeded, db)
      else
        (.ok db.next_id "completed" db.next_id,
          { db with
              slots :=
                bumpFirst (slotKeyed booking.date booking.time_slot booking.ticket_type)
                  1 db.slots
              bookings := db.bookings.map (fun b =>
                if b.booking_id == booking.booking_id then
                  { b with status := "confirmed", payment_status := "completed" }
                else b)
              payments := db.payments ++
                [⟨db.next_id, booking.booking_id, r.amount, r.payment_method,
                  "completed", db.next_id⟩]
              next_id := db.next_id + 1 }) := by
  unfold initialize_payment
  rw [hb]
  simp only [hs, beq_iff_eq, if_neg hpend]

/-- The accumulation loop of get_calendar_data computes, besides the
per-slot detail, the sums of available seats and of capacities. -/
theorem calendarTotals_eq (l : List TimeSlot) :
    calendarTotals l =
      (l.map (fun s => ⟨s.slot_time, s.capacity - s.booked_count, s.capacity, s.booked_count⟩),
        (l.map (fun s => s.capacity - s.booked_count)).sum,
        (l.map (fun s => s.capacity)).sum) := by
  induction l with
  | nil => rfl
  | cons a rest ih => simp [calendarTotals, ih]

/-- C1: at every reachable database state, every time slot satisfies
0 ≤ booked_count ≤ capacity: slots are created with booked_count = 0 and
capacity = 50, and both the full-count reserve performed by
create_booking and the fixed-unit increment performed by
initialize_payment preserve the bound. -/
theorem chatbot_C1_slot_invariant (db : DB) (h : Reachable db) :
    ∀ s ∈ db.slots, 0 ≤ s.booked_count ∧ s.booked_count ≤ s.capacity := by
  induction h with
  | init pricings => intro s hs; simp at hs
  | createBooking r _ ih => exact create_booking_preserves_inv _ r ih
  | initPayment r _ ih => exact initialize_payment_preserves_inv _ r ih
  | getOrCreateStep d _ ih => exact getOrCreate_preserves_inv _ d ih
  | calendarDayStep today d _ ih => exact calendar_day_preserves_inv today d _ ih

theorem chatbot_C1_witness :
    0 ≤ (⟨0, "10:00 AM", "Regular", 50, 0⟩ : TimeSlot).booked_count ∧
      (⟨0, "10:00 AM", "Regular", 50, 0⟩ : TimeSlot).booked_count ≤
        (⟨0, "10:00 AM", "Regular", 50, 0⟩ : TimeSlot).capacity :=
  chatbot_C1_slot_invariant _ (Reachable.getOrCreateStep 0 (Reachable.init []))
    ⟨0, "10:00 AM", "Regular", 50, 0⟩ (by decide)

/-- C2: a booking-creation request whose visitor total exceeds the
slot's remaining capacity fails with the capacity error carrying
exactly capacity - booked_count and the whole transaction rolls back
(no booking row, slot untouched, database unchanged); otherwise
booked_count increases by exactly the visitor count and a pending
booking row is appended. -/
theorem chatbot_C2_capacity_check (db : DB) (r : BookingRequest)
    (pricing : Pricing) (slot : TimeSlot)
    (h1 : 0 ≤ r.adults) (h2 : 0 ≤ r.children) (h3 : 0 < r.adults + r.children)
    (hp : db.pricings.find? (pricingMatch r.nationality r.ticketType r.date) = some pricing)
    (hs : db.slots.find? (slotKeyed r.date r.timeSlot r.ticketType) = some slot) :
    (slot.capacity < slot.booked_count + (r.adults + r.children) →
        create_booking db r =
          (.capacityExceeded (r.adults + r.children)
            (slot.capacity - slot.booked_count), db))
    ∧ (slot.booked_count + (r.adults + r.children) ≤ slot.capacity →
        (create_booking db r).1 =
            .ok db.next_id (mkBooking db r pricing).total_amount ∧
        (create_booking db r).2.bookings = db.bookings ++ [mkBooking db r pricing] ∧
        (create_booking db r).2.slots.find? (slotKeyed r.date r.timeSlot r.ticketType) =
          some { slot with booked_count := slot.booked_count + (r.adults + r.children) }) := by
  have heq := create_booking_eq_of_found db r pricing slot
    (not_lt.mpr h1) (not_lt.mpr h2) (not_le.mpr h3) hp hs
  constructor
  · intro hcap
    rw [heq, if_pos hcap]
  · intro hcap
    rw [heq, if_neg (not_lt.mpr hcap)]
    refine ⟨rfl, rfl, ?_⟩
    show (bumpFirst (slotKeyed r.date r.timeSlot r.ticketType)
        (r.adults + r.children) db.slots).find? (slotKeyed r.date r.timeSlot r.ticketType) = _
    rw [find?_bumpFirst _ _ _ (fun s => slotKeyed_bump _ _ _ _ s), hs]
    rfl

theorem chatbot_C2_witness :
    create_booking
        ⟨[⟨1, "10:00 AM", "Regular", 50, 48⟩], [], [],
          [⟨"Foreign", "Regular", 30, 15, 0, 10⟩], 0⟩
        ⟨1, "Foreign", 2, 1, "Regular", "10:00 AM", "a@b.c"⟩ =
      (.capacityExceeded 3 2,
        ⟨[⟨1, "10:00 AM", "Regular", 50, 48⟩], [], [],
          [⟨"Foreign", "Regular", 30, 15, 0, 10⟩], 0⟩) :=
  (chatbot_C2_capacity_check _ _ ⟨"Foreign", "Regular", 30, 15, 0, 10⟩
      ⟨1, "10:00 AM", "Regular", 50, 48⟩ (by decide) (by decide) (by decide)
      (by rfl) (by rfl)).1 (by decide)

/-- C3: a successful initialize_payment call increments the booked_count
of the booking's slot by exactly 1, whatever the booking's adults and
children counts are (they are left unconstrained here). -/
theorem chatbot_C3_fixed_unit_increment (db : DB) (r : PaymentRequest)
    (booking : Booking) (slot : TimeSlot)
    (hb : db.bookings.find? (fun b => b.booking_id == r.booking_id) = some booking)
    (hpend : booking.payment_status ≠ "completed")
    (hs : db.slots.find? (slotKeyed booking.date booking.time_slot booking.ticket_type) =
      some slot)
    (hcap : slot.booked_count + 1 ≤ slot.capacity) :
    (initialize_payment db r).1 = .ok db.next_id "completed" db.next_id ∧
    (initialize_payment db r).2.slots.find?
        (slotKeyed booking.date booking.time_slot booking.ticket_type) =
      some { slot with booked_count := slot.booked_count + 1 } := by
  have heq := initialize_payment_eq_of_found db r booking slot hb hpend hs
  rw [heq, if_neg (not_lt.mpr hcap)]
  refine ⟨rfl, ?_⟩
  show (bumpFirst (slotKeyed booking.date booking.time_slot booking.ticket_type)
      1 db.slots).find? (slotKeyed booking.date booking.time_slot booking.ticket_type) = _
  rw [find?_bumpFirst _ _ _ (fun s => slotKeyed_bump _ _ _ _ s), hs]
  rfl

theorem chatbot_C3_witness :
    (initialize_payment
        ⟨[⟨1, "10:00 AM", "Regular", 50, 3⟩],
          [⟨5, 1, "a@b.c", "Foreign", 2, 1, "Regular", "10:00 AM", 75, "pending", "pending"⟩],
          [], [], 9⟩
        ⟨5, 75, "card"⟩).1 = .ok 9 "completed" 9 ∧
    (initialize_payment
        ⟨[⟨1, "10:00 AM", "Regular", 50, 3⟩],
          [⟨5, 1, "a@b.c", "Foreign", 2, 1, "Regular", "10:00 AM", 75, "pending", "pending"⟩],
          [], [], 9⟩
        ⟨5, 75, "card"⟩).2.slots.find? (slotKeyed 1 "10:00 AM" "Regular") =
      some ⟨1, "10:00 AM", "Regular", 50, 4⟩ :=
  chatbot_C3_fixed_unit_increment _ _
    ⟨5, 1, "a@b.c", "Foreign", 2, 1, "Regular", "10:00 AM", 75, "pending", "pending"⟩
    ⟨1, "10:00 AM", "Regular", 50, 3⟩ (by rfl) (by decide) (by rfl) (by decide)

/-- C4: an initialize_payment call on an existing, not-yet-completed
booking whose fixed-unit slot reservation fails (slot missing, or
booked_count + 1 > capacity) rolls the whole transaction back: the
database is returned unchanged, so no payment row is recorded and the
booking's status and payment_status are untouched. -/
theorem chatbot_C4_payment_rollback (db : DB) (r : PaymentRequest) (booking : Booking)
    (hb : db.bookings.find? (fun b => b.booking_id == r.booking_id) = some booking)
    (hpend : booking.payment_status ≠ "completed")
    (hfail :
      db.slots.find? (slotKeyed booking.date booking.time_slot booking.ticket_type) = none ∨
      ∃ slot,
        db.slots.find? (slotKeyed booking.date booking.time_slot booking.ticket_type) =
          some slot ∧ slot.capacity < slot.booked_count + 1) :
    (initialize_payment db r).2 = db ∧
      ((initialize_payment db r).1 = .slotNotFound ∨
        (initialize_payment db r).1 = .capacityExceeded) := by
  rcases hfail with hnone | ⟨slot, hs, hcap⟩
  · unfold initialize_payment
    rw [hb]
    simp only [beq_iff_eq, if_neg hpend, hnone]
    exact ⟨trivial, Or.inl trivial⟩
  · have heq := initialize_payment_eq_of_found db r booking slot hb hpend hs
    rw [heq, if_pos hcap]
    exact ⟨rfl, Or.inr rfl⟩

theorem chatbot_C4_witness :
    (initialize_payment
        ⟨[], [⟨5, 1, "a@b.c", "Foreign", 2, 1, "Regular", "10:00 AM", 75, "pending", "pending"⟩],
          [], [], 9⟩
        ⟨5, 75, "card"⟩).2 =
      ⟨[], [⟨5, 1, "a@b.c", "Foreign", 2, 1, "Regular", "10:00 AM", 75, "pending", "pending"⟩],
        [], [], 9⟩ ∧
    ((initialize_payment
        ⟨[], [⟨5, 1, "a@b.c", "Foreign", 2, 1, "Regular", "10:00 AM", 75, "pending", "pending"⟩],
          [], [], 9⟩
        ⟨5, 75, "card"⟩).1 = .slotNotFound ∨
      (initialize_payment
        ⟨[], [⟨5, 1, "a@b.c", "Foreign", 2, 1, "Regular", "10:00 AM", 75, "pending", "pending"⟩],
          [], [], 9⟩
        ⟨5, 75, "card"⟩).1 = .capacityExceeded) :=
  chatbot_C4_payment_rollback _ _
    ⟨5, 1, "a@b.c", "Foreign", 2, 1, "Regular", "10:00 AM", 75, "pending", "pending"⟩
    (by rfl) (by decide) (Or.inl (by rfl))

/-- C5: every successfully created booking stores
total_amount = adults * adult_price + children * child_price, where the
prices come from the pricing row matched for the request's nationality,
ticket type and date. -/
theorem chatbot_C5_total_amount (db : DB) (r : BookingRequest)
    (pricing : Pricing) (id : Nat) (amt : ℚ)
    (hp : db.pricings.find? (pricingMatch r.nationality r.ticketType r.date) = some pricing)
    (hok : (create_booking db r).1 = .ok id amt) :
    (create_booking db r).2.bookings = db.bookings ++ [mkBooking db r pricing] ∧
    (mkBooking db r pricing).total_amount =
      (r.adults : ℚ) * pricing.adult_price + (r.children : ℚ) * pricing.child_price ∧
    amt = (mkBooking db r pricing).total_amount ∧
    (mkBooking db r pricing).adults = r.adults ∧
    (mkBooking db r pricing).children = r.children ∧
    pricing.nationality = r.nationality ∧ pricing.ticket_type = r.ticketType ∧
    pricing.effective_from ≤ r.date ∧ r.date ≤ pricing.effective_to := by
  have hm := List.find?_some hp
  simp only [pricingMatch, Bool.and_eq_true, beq_iff_eq, decide_eq_true_eq] at hm
  unfold create_booking at hok ⊢
  by_cases h1 : r.adults < 0
  · rw [if_pos h1] at hok; exact absurd hok (by simp)
  rw [if_neg h1] at hok ⊢
  by_cases h2 : r.children < 0
  · rw [if_pos h2] at hok; exact absurd hok (by simp)
  rw [if_neg h2] at hok ⊢
  by_cases h3 : r.adults + r.children ≤ 0
  · rw [if_pos h3] at hok; exact absurd hok (by simp)
  rw [if_neg h3] at hok ⊢
  rw [hp] at hok ⊢
  simp only at hok ⊢
  cases hf : db.slots.find? (slotKeyed r.date r.timeSlot r.ticketType) with
  | some s0 =>
    simp only [hf, Option.getD_some, Option.isSome_some] at hok ⊢
    by_cases hcap : s0.booked_count + (r.adults + r.children) > s0.capacity
    · rw [if_pos hcap] at hok; exact absurd hok (by simp)
    · rw [if_neg hcap] at hok ⊢
      dsimp only at hok
      injection hok with hid hamt
      exact ⟨rfl, rfl, hamt.symm, rfl, rfl, hm.1.1.1, hm.1.1.2, hm.1.2, hm.2⟩
  | none =>
    simp only [hf, Option.getD_none, Option.isSome_none, Bool.false_eq_true, if_false]
      at hok ⊢
    by_cases hcap : (0 : Int) + (r.adults + r.children) > 50
    · rw [if_pos hcap] at hok; exact absurd hok (by simp)
    · rw [if_neg hcap] at hok ⊢
      dsimp only at hok
      injection hok with hid hamt
      exact ⟨rfl, rfl, hamt.symm, rfl, rfl, hm.1.1.1, hm.1.1.2, hm.1.2, hm.2⟩

theorem chatbot_C5_witness :
    (create_booking
        ⟨[⟨1, "10:00 AM", "Regular", 50, 0⟩], [], [],
          [⟨"Foreign", "Regular", 30, 15, 0, 10⟩], 0⟩
        ⟨1, "Foreign", 2, 1, "Regular", "10:00 AM", "a@b.c"⟩).2.bookings =
      [] ++ [mkBooking
        ⟨[⟨1, "10:00 AM", "Regular", 50, 0⟩], [], [],
          [⟨"Foreign", "Regular", 30, 15, 0, 10⟩], 0⟩
        ⟨1, "Foreign", 2, 1, "Regular", "10:00 AM", "a@b.c"⟩
        ⟨"Foreign", "Regular", 30, 15, 0, 10⟩] ∧
    (75 : ℚ) = (mkBooking
        ⟨[⟨1, "10:00 AM", "Regular", 50, 0⟩], [], [],
          [⟨"Foreign", "Regular", 30, 15, 0, 10⟩], 0⟩
        ⟨1, "Foreign", 2, 1, "Regular", "10:00 AM", "a@b.c"⟩
        ⟨"Foreign", "Regular", 30, 15, 0, 10⟩).total_amount := by
  have hok : (create_booking
      ⟨[⟨1, "10:00 AM", "Regular", 50, 0⟩], [], [],
        [⟨"Foreign", "Regular", 30, 15, 0, 10⟩], 0⟩
      ⟨1, "Foreign", 2, 1, "Regular", "10:00 AM", "a@b.c"⟩).1 = .ok 0 75 := by
    rw [create_booking_eq_of_found
      ⟨[⟨1, "10:00 AM", "Regular", 50, 0⟩], [], [],
        [⟨"Foreign", "Regular", 30, 15, 0, 10⟩], 0⟩
      ⟨1, "Foreign", 2, 1, "Regular", "10:00 AM", "a@b.c"⟩
      ⟨"Foreign", "Regular", 30, 15, 0, 10⟩
      ⟨1, "10:00 AM", "Regular", 50, 0⟩ (by decide) (by decide) (by decide) rfl rfl,
      if_neg (by decide)]
    dsimp only
    norm_num
  exact ⟨(chatbot_C5_total_amount
      ⟨[⟨1, "10:00 AM", "Regular", 50, 0⟩], [], [],
        [⟨"Foreign", "Regular", 30, 15, 0, 10⟩], 0⟩
      ⟨1, "Foreign", 2, 1, "Regular", "10:00 AM", "a@b.c"⟩
      ⟨"Foreign", "Regular", 30, 15, 0, 10⟩ 0 75 rfl hok).1,
    (chatbot_C5_total_amount
      ⟨[⟨1, "10:00 AM", "Regular", 50, 0⟩], [], [],
        [⟨"Foreign", "Regular", 30, 15, 0, 10⟩], 0⟩
      ⟨1, "Foreign", 2, 1, "Regular", "10:00 AM", "a@b.c"⟩
      ⟨"Foreign", "Regular", 30, 15, 0, 10⟩ 0 75 rfl hok).2.2.1⟩

/-- C6: the pricing lookup returns a row only when it matches the
requested nationality and ticket type with
effective_from ≤ date ≤ effective_to; when every matching row's
validity interval misses the date it returns none; and it never writes
to the database. -/
theorem chatbot_C6_pricing_lookup (db : DB) (nat tt : String) (d : Int) :
    (∀ prices, (get_pricing db nat tt d).1 = some prices →
      ∃ p, p ∈ db.pricings ∧ p.nationality = nat ∧ p.ticket_type = tt ∧
        p.effective_from ≤ d ∧ d ≤ p.effective_to ∧
        prices = (p.adult_price, p.child_price))
    ∧ ((∀ p ∈ db.pricings, p.nationality = nat → p.ticket_type = tt →
          ¬(p.effective_from ≤ d ∧ d ≤ p.effective_to)) →
        (get_pricing db nat tt d).1 = none)
    ∧ (get_pricing db nat tt d).2 = db := by
  refine ⟨?_, ?_, rfl⟩
  · intro prices hpr
    unfold get_pricing at hpr
    cases hf : db.pricings.find? (pricingMatch nat tt d) with
    | none => rw [hf] at hpr; simp at hpr
    | some p =>
      rw [hf] at hpr
      simp only [Option.map_some', Option.some.injEq] at hpr
      have hmem := List.mem_of_find?_eq_some hf
      have hm := List.find?_some hf
      simp only [pricingMatch, Bool.and_eq_true, beq_iff_eq, decide_eq_true_eq] at hm
      exact ⟨p, hmem, hm.1.1.1, hm.1.1.2, hm.1.2, hm.2, hpr.symm⟩
  · intro hall
    unfold get_pricing
    dsimp only
    rw [List.find?_eq_none.mpr ?_]
    · rfl
    intro p hmem hmatch
    simp only [pricingMatch, Bool.and_eq_true, beq_iff_eq, decide_eq_true_eq] at hmatch
    exact hall p hmem hmatch.1.1.1 hmatch.1.1.2 ⟨hmatch.1.2, hmatch.2⟩

theorem chatbot_C6_witness :
    (get_pricing ⟨[], [], [], [⟨"Local", "Regular", 20, 10, 0, 10⟩], 0⟩
        "Local" "Regular" 50).1 = none ∧
    (get_pricing ⟨[], [], [], [⟨"Local", "Regular", 20, 10, 0, 10⟩], 0⟩
        "Local" "Regular" 50).2 =
      ⟨[], [], [], [⟨"Local", "Regular", 20, 10, 0, 10⟩], 0⟩ :=
  ⟨(chatbot_C6_pricing_lookup _ "Local" "Regular" 50).2.1 (by decide),
   (chatbot_C6_pricing_lookup _ "Local" "Regular" 50).2.2⟩

theorem slotsFor_append_default (d : Int) (l : List TimeSlot) :
    slotsFor d (l ++ defaultSlots d) = slotsFor d l ++ defaultSlots d := by
  simp [slotsFor, List.filter_append, defaultSlots]

theorem getOrCreate_noop (db : DB) (d : Int) (h : ¬ (slotsFor d db.slots).isEmpty = true) :
    getOrCreate db d = (slotsFor d db.slots, db) := by
  unfold getOrCreate
  rw [if_neg h]

theorem slotsFor_getOrCreate_not_empty (db : DB) (d : Int) :
    ¬ (slotsFor d (getOrCreate db d).2.slots).isEmpty = true := by
  rw [getOrCreate_slots_eq]
  by_cases hc : (slotsFor d db.slots).isEmpty = true
  · rw [if_pos hc, slotsFor_append_default]
    simp [defaultSlots]
  · rw [if_neg hc]
    exact hc

/-- C7: lazy slot materialization is idempotent per date: a first call
on a date with no slots creates exactly the two default slots (morning
10:00 AM and afternoon 2:00 PM, Regular, capacity 50, booked 0), and a
second call for the same date returns the existing slots and changes
nothing, so repeated calls never yield more than two slots for a
date. -/
theorem chatbot_C7_getOrCreate_idempotent (db : DB) (d : Int) :
    (slotsFor d db.slots = [] →
      (getOrCreate db d).1 = defaultSlots d ∧
      slotsFor d (getOrCreate db d).2.slots = defaultSlots d)
    ∧ (getOrCreate (getOrCreate db d).2 d).2 = (getOrCreate db d).2
    ∧ (getOrCreate (getOrCreate db d).2 d).1 =
        slotsFor d (getOrCreate db d).2.slots := by
  refine ⟨?_, ?_, ?_⟩
  · intro hempty
    have hc : (slotsFor d db.slots).isEmpty = true := by rw [hempty]; rfl
    constructor
    · unfold getOrCreate
      rw [if_pos hc]
    · rw [getOrCreate_slots_eq, if_pos hc, slotsFor_append_default, hempty,
        List.nil_append]
  · rw [getOrCreate_noop _ _ (slotsFor_getOrCreate_not_empty db d)]
  · rw [getOrCreate_noop _ _ (slotsFor_getOrCreate_not_empty db d)]

theorem chatbot_C7_witness :
    (getOrCreate ⟨[], [], [], [], 0⟩ 0).1 = defaultSlots 0 ∧
    slotsFor 0 (getOrCreate ⟨[], [], [], [], 0⟩ 0).2.slots = defaultSlots 0 ∧
    (getOrCreate (getOrCreate ⟨[], [], [], [], 0⟩ 0).2 0).2 =
      (getOrCreate ⟨[], [], [], [], 0⟩ 0).2 :=
  ⟨((chatbot_C7_getOrCreate_idempotent ⟨[], [], [], [], 0⟩ 0).1 rfl).1,
   ((chatbot_C7_getOrCreate_idempotent ⟨[], [], [], [], 0⟩ 0).1 rfl).2,
   (chatbot_C7_getOrCreate_idempotent ⟨[], [], [], [], 0⟩ 0).2.1⟩

/-- C8 counterexample: on a database with no slots at all, the
availability query for date 5 returns an empty list and leaves the
database unchanged; afterwards there are still no slots for that date,
refuting the claim that the availability operation lazily materializes
the two default slots as a side effect. -/
theorem chatbot_C8_cex :
    check_availability ⟨[], [], [], [], 0⟩ 5 = ([], ⟨[], [], [], [], 0⟩) ∧
    slotsFor 5 (check_availability ⟨[], [], [], [], 0⟩ 5).2.slots = [] :=
  ⟨rfl, rfl⟩

/-- C8 amended: the availability operation is a pure read: it never
modifies the database, performs no reservation, and for a date with no
existing slots it returns an empty list without creating any; lazy
materialization of the two default slots happens only in the
bookings-by-date and monthly-calendar handlers. -/
theorem chatbot_C8_availability_read_only (db : DB) (d : Int) :
    (check_availability db d).2 = db ∧
    (slotsFor d db.slots = [] → (check_availability db d).1 = []) := by
  refine ⟨rfl, fun h => ?_⟩
  unfold check_availability
  rw [h]
  rfl

theorem chatbot_C8_witness :
    (check_availability ⟨[], [], [], [], 3⟩ 7).2 = ⟨[], [], [], [], 3⟩ ∧
    (check_availability ⟨[], [], [], [], 3⟩ 7).1 = [] :=
  ⟨(chatbot_C8_availability_read_only ⟨[], [], [], [], 3⟩ 7).1,
   (chatbot_C8_availability_read_only ⟨[], [], [], [], 3⟩ 7).2 rfl⟩

/-- C9: for a calendar day that has slots, the day's entry carries
total_available = Σ (capacity - booked_count) and
total_capacity = Σ capacity over the day's slots, and its status is the
pure threshold function of those totals (0 capacity: unavailable; 0
available: full; at most 5 available: limited; otherwise available); a
day with no slots that lies in the past gets the unavailable status
with empty slot detail and zero totals. -/
theorem chatbot_C9_calendar_classification (today d : Int) (slots : List TimeSlot) :
    (slotsFor d slots ≠ [] →
      (calendar_day today d slots).1.total_available =
          ((slotsFor d slots).map (fun s => s.capacity - s.booked_count)).sum ∧
      (calendar_day today d slots).1.total_capacity =
          ((slotsFor d slots).map (fun s => s.capacity)).sum ∧
      (calendar_day today d slots).1.status =
        (if ((slotsFor d slots).map (fun s => s.capacity)).sum = 0 then "unavailable"
         else if ((slotsFor d slots).map (fun s => s.capacity - s.booked_count)).sum = 0
           then "full"
         else if ((slotsFor d slots).map (fun s => s.capacity - s.booked_count)).sum ≤ 5
           then "limited"
         else "available"))
    ∧ (slotsFor d slots = [] → d < today →
        (calendar_day today d slots).1 = ⟨"unavailable", [], 0, 0⟩) := by
  constructor
  · intro hne
    have hc : (slotsFor d slots).isEmpty = false := by
      cases h : slotsFor d slots with
      | nil => exact absurd h hne
      | cons a l => rfl
    have hmat : ((slotsFor d slots).isEmpty && decide (d ≥ today)) = false := by
      rw [hc, Bool.false_and]
    unfold calendar_day
    simp only [hmat, Bool.false_eq_true, if_false]
    rw [if_neg (by rw [hc]; simp)]
    rw [calendarTotals_eq]
    dsimp only
    simp only [beq_iff_eq]
    exact ⟨trivial, trivial, trivial⟩
  · intro hempty hd
    have hc : (slotsFor d slots).isEmpty = true := by rw [hempty]; rfl
    have hmat : ((slotsFor d slots).isEmpty && decide (d ≥ today)) = false := by
      rw [decide_eq_false (not_le.mpr hd), Bool.and_false]
    unfold calendar_day
    simp only [hmat, Bool.false_eq_true, if_false]
    rw [if_pos hc]

theorem chatbot_C9_witness :
    (calendar_day 0 0 (defaultSlots 0)).1.total_available =
        ((slotsFor 0 (defaultSlots 0)).map (fun s => s.capacity - s.booked_count)).sum ∧
    (calendar_day 1 0 []).1 = ⟨"unavailable", [], 0, 0⟩ :=
  ⟨((chatbot_C9_calendar_classification 0 0 (defaultSlots 0)).1 (by decide)).1,
   (chatbot_C9_calendar_classification 1 0 []).2 rfl (by decide)⟩

/-- C10: initialize_payment records exactly the caller-supplied amount
and performs no check of it against the booking's total_amount: under
the same success conditions as any payment (booking found and pending,
slot found with room for the fixed unit) and for an arbitrary request
amount, the payment completes with that amount and the booking is
confirmed. -/
theorem chatbot_C10_amount_unchecked (db : DB) (r : PaymentRequest)
    (booking : Booking) (slot : TimeSlot)
    (hb : db.bookings.find? (fun b => b.booking_id == r.booking_id) = some booking)
    (hpend : booking.payment_status ≠ "completed")
    (hs : db.slots.find? (slotKeyed booking.date booking.time_slot booking.ticket_type) =
      some slot)
    (hcap : slot.booked_count + 1 ≤ slot.capacity) :
    (initialize_payment db r).1 = .ok db.next_id "completed" db.next_id ∧
    (initialize_payment db r).2.payments = db.payments ++
      [⟨db.next_id, booking.booking_id, r.amount, r.payment_method, "completed",
        db.next_id⟩] ∧
    (initialize_payment db r).2.bookings.find? (fun b => b.booking_id == r.booking_id) =
      some { booking with status := "confirmed", payment_status := "completed" } := by
  have heq := initialize_payment_eq_of_found db r booking slot hb hpend hs
  rw [heq, if_neg (not_lt.mpr hcap)]
  refine ⟨rfl, rfl, ?_⟩
  have hg : ∀ b : Booking,
      ((if b.booking_id == booking.booking_id then
          ({ b with status := "confirmed", payment_status := "completed" } : Booking)
        else b).booking_id == r.booking_id) = (b.booking_id == r.booking_id) := by
    intro b
    by_cases hid : (b.booking_id == booking.booking_id) = true
    · rw [if_pos hid]
    · rw [if_neg hid]
  show (db.bookings.map (fun b => if b.booking_id == booking.booking_id then
      { b with status := "confirmed", payment_status := "completed" } else b)).find?
      (fun b => b.booking_id == r.booking_id) = _
  refine (find?_map_pres
      (fun b => if b.booking_id == booking.booking_id then
        { b with status := "confirmed", payment_status := "completed" } else b)
      (fun b => b.booking_id == r.booking_id) hg db.bookings).trans ?_
  rw [hb, Option.map_some', if_pos (by simp)]

theorem chatbot_C10_witness :
    (1 : ℚ) ≠
      (⟨5, 1, "a@b.c", "Foreign", 2, 1, "Regular", "10:00 AM", 75, "pending",
        "pending"⟩ : Booking).total_amount ∧
    (initialize_payment
        ⟨[⟨1, "10:00 AM", "Regular", 50, 3⟩],
          [⟨5, 1, "a@b.c", "Foreign", 2, 1, "Regular", "10:00 AM", 75, "pending",
            "pending"⟩],
          [], [], 9⟩
        ⟨5, 1, "card"⟩).1 = .ok 9 "completed" 9 ∧
    (initialize_payment
        ⟨[⟨1, "10:00 AM", "Regular", 50, 3⟩],
          [⟨5, 1, "a@b.c", "Foreign", 2, 1, "Regular", "10:00 AM", 75, "pending",
            "pending"⟩],
          [], [], 9⟩
        ⟨5, 1, "card"⟩).2.payments = [] ++ [⟨9, 5, 1, "card", "completed", 9⟩] := by
  refine ⟨by dsimp only; norm_num, ?_, ?_⟩
  · exact (chatbot_C10_amount_unchecked
      ⟨[⟨1, "10:00 AM", "Regular", 50, 3⟩],
        [⟨5, 1, "a@b.c", "Foreign", 2, 1, "Regular", "10:00 AM", 75, "pending",
          "pending"⟩],
        [], [], 9⟩
      ⟨5, 1, "card"⟩
      ⟨5, 1, "a@b.c", "Foreign", 2, 1, "Regular", "10:00 AM", 75, "pending", "pending"⟩
      ⟨1, "10:00 AM", "Regular", 50, 3⟩ rfl (by decide) rfl (by decide)).1
  · exact (chatbot_C10_amount_unchecked
      ⟨[⟨1, "10:00 AM", "Regular", 50, 3⟩],
        [⟨5, 1, "a@b.c", "Foreign", 2, 1, "Regular", "10:00 AM", 75, "pending",
          "pending"⟩],
        [], [], 9⟩
      ⟨5, 1, "card"⟩
      ⟨5, 1, "a@b.c", "Foreign", 2, 1, "Regular", "10:00 AM", 75, "pending", "pending"⟩
      ⟨1, "10:00 AM", "Regular", 50, 3⟩ rfl (by decide) rfl (by decide)).2.1

end Chatbot
